import Mathlib

/-!
Shallow embedding of the Fake News Detector service (`main.py`, `database.py`):
the `predictions` table, the four HTTP handlers (`/predict`, `/feedback`,
`/api/stats`, `/api/predictions`), and the externally supplied classifier
artifact (`models/ensemble_model.pkl` + `models/encoder.pkl`) at its
interface boundary.  Machine floats are modelled as rationals; Python's
`round(x, n)` (banker's rounding) is modelled exactly; Python truthiness of
the probability value (`if proba`) is modelled explicitly.
-/

namespace FakeNews

/-- One row of the `predictions` table (`database.py`, class `Prediction`).
`user_feedback` and `user_rating` are nullable columns, so they are
`Option`s; `confidence` is a non-nullable float column. -/
structure Prediction where
  id : Nat
  title : String
  text : String
  prediction : String
  confidence : ℚ
  latency_seconds : ℚ
  timestamp : Nat
  user_feedback : Option String
  user_rating : Option Int
  created_at : Nat
deriving DecidableEq

/-- The database state: the list of stored rows (in insertion order) plus
the next value of the autoincrementing integer primary key.  SQLite's
autoincrement starts at 1. -/
structure Store where
  recs : List Prediction
  nextId : Nat
deriving DecidableEq

/-- Request body of `POST /predict` (`class NewsItem`): `title` defaults to
the empty string, `text` is required. -/
structure NewsItem where
  title : String
  text : String
deriving DecidableEq

/-- Request body of `POST /feedback` (`class FeedbackItem`). -/
structure FeedbackItem where
  prediction_id : Int
  user_feedback : String
  user_rating : Int
deriving DecidableEq

/-- Python's `round` to an integer: nearest integer, ties to even
(banker's rounding), as used by `round(x, n)` in `main.py`. -/
def pyRoundInt (q : ℚ) : ℤ :=
  if Int.fract q < 1/2 then ⌊q⌋
  else if 1/2 < Int.fract q then ⌊q⌋ + 1
  else if ⌊q⌋ % 2 = 0 then ⌊q⌋ else ⌊q⌋ + 1

/-- Python's `round(q, ndigits)`: round to the nearest multiple of
`10 ^ (-ndigits)`, ties to even. -/
def pyRound (q : ℚ) (ndigits : Nat) : ℚ :=
  (pyRoundInt (q * 10 ^ ndigits) : ℚ) / 10 ^ ndigits

/-- Python truthiness of the probability value: `None` and `0.0` are falsy
(this is the `if proba` test at `main.py` lines 240 and 257). -/
def pyTruthy : Option ℚ → Bool
  | none => false
  | some q => q != 0

/-- Behaviour of `model.predict_proba` on the input, as observed by the
`/predict` handler (`main.py` lines 198-203): the attribute may be missing
(`absent`), the call may raise (`raises`, in which case the handler sets
`proba = 0.0`), or it returns a value (`returns f`, where `f s` is
`np.max(model.predict_proba([s]))`). -/
inductive ProbaSpec where
  | absent
  | raises
  | returns (f : String → ℚ)

/-- The external classifier pipeline artifact at its interface boundary:
`predictCls s` is `model.predict(pd.Series([s]))[0]` (an encoded class
index) and `proba` describes `model.predict_proba`. -/
structure Model where
  predictCls : String → Nat
  proba : ProbaSpec

/-- The external label-encoder artifact: `inverse_transform c` is
`encoder.inverse_transform([c])[0]`. -/
structure Encoder where
  inverse_transform : Nat → String

/-- Response body of `POST /predict` (`main.py` lines 254-259). -/
structure PredictResponse where
  prediction_id : Option Nat
  prediction : String
  confidence : Option ℚ
  latency_seconds : ℚ
deriving DecidableEq

/-- `full_text = news.title + " " + news.text` (`main.py` line 191). -/
def fullTextOf (news : NewsItem) : String :=
  news.title ++ " " ++ news.text

/-- The value of the local variable `proba` after `main.py` lines 198-203. -/
def probaValue (m : Model) (s : String) : Option ℚ :=
  match m.proba with
  | .absent => none
  | .raises => some 0
  | .returns f => some (f s)

/-- Python's `str.upper()` on the label string, modelled characterwise
over the string's characters. -/
def pyUpper (s : String) : String :=
  ⟨s.data.map Char.toUpper⟩

/-- `decoded_label = encoder.inverse_transform([prediction])[0].upper()`
(`main.py` line 205). -/
def decodedLabel (m : Model) (e : Encoder) (s : String) : String :=
  pyUpper (e.inverse_transform (m.predictCls s))

/-- The confidence written to the database:
`float(proba) if proba else 0.0` (`main.py` line 240). -/
def dbConfidence (p : Option ℚ) : ℚ :=
  if pyTruthy p then p.getD 0 else 0

/-- The confidence in the HTTP response:
`round(float(proba), 3) if proba else None` (`main.py` line 257). -/
def respConfidence (p : Option ℚ) : Option ℚ :=
  if pyTruthy p then some (pyRound (p.getD 0) 3) else none

/-- The row inserted by the `/predict` handler on a successful write
(`main.py` lines 236-247): SQLite assigns the next autoincrement id, both
timestamps default to the same `datetime.utcnow()` moment, and the
feedback fields start out NULL. -/
def db_prediction (m : Model) (e : Encoder) (news : NewsItem) (elapsed : ℚ)
    (now : Nat) (st : Store) : Prediction :=
  { id := st.nextId
    title := news.title
    text := news.text
    prediction := decodedLabel m e (fullTextOf news)
    confidence := dbConfidence (probaValue m (fullTextOf news))
    latency_seconds := pyRound elapsed 3
    timestamp := now
    user_feedback := none
    user_rating := none
    created_at := now }

/-- The response dict of the `/predict` handler (`main.py` lines 254-259). -/
def predictResponse (m : Model) (e : Encoder) (news : NewsItem) (elapsed : ℚ)
    (persistOk : Bool) (st : Store) : PredictResponse :=
  { prediction_id := if persistOk then some st.nextId else none
    prediction := decodedLabel m e (fullTextOf news)
    confidence := respConfidence (probaValue m (fullTextOf news))
    latency_seconds := pyRound elapsed 3 }

/-- The `POST /predict` handler (`main.py` lines 183-259).  `elapsed` is
the wall-clock time `time.time() - start_time`, `now` the creation
timestamp `datetime.utcnow()`, and `persistOk` whether the database write
at lines 235-248 succeeds; on failure the session is rolled back and
`prediction_id` is `None`, but the response is still returned. -/
def predictEndpoint (m : Model) (e : Encoder) (news : NewsItem) (elapsed : ℚ)
    (now : Nat) (persistOk : Bool) (st : Store) : Store × PredictResponse :=
  if persistOk then
    ({ recs := st.recs ++ [db_prediction m e news elapsed now st],
        nextId := st.nextId + 1 },
      predictResponse m e news elapsed true st)
  else
    (st, predictResponse m e news elapsed false st)

/-- Outcome of the `POST /feedback` handler: success payload, HTTP 404
("Prediction not found"), or HTTP 400 with a validation message. -/
inductive FeedbackResult where
  | ok (prediction_id : Int)
  | notFound
  | badRequest (detail : String)
deriving DecidableEq

/-- `prediction.user_feedback = ...; prediction.user_rating = ...` applied
to the first row matching the id, which is what
`db.query(Prediction).filter(Prediction.id == ...).first()` addresses
(`main.py` lines 269, 282-283). -/
def setFeedbackFirst (pid : Int) (fbv : String) (rt : Int) :
    List Prediction → List Prediction
  | [] => []
  | r :: rs =>
    if (r.id : Int) = pid then
      { r with user_feedback := some fbv, user_rating := some rt } :: rs
    else
      r :: setFeedbackFirst pid fbv rt rs

/-- The `POST /feedback` handler (`main.py` lines 262-308): look up the row
by id (404 if absent), validate `user_feedback` against
`["correct", "incorrect"]` (400), validate `user_rating` against 1-5
(400), otherwise set both fields and commit. -/
def submit_feedback (feedback : FeedbackItem) (st : Store) :
    Store × FeedbackResult :=
  match st.recs.find? (fun r => (r.id : Int) == feedback.prediction_id) with
  | none => (st, .notFound)
  | some _ =>
    if feedback.user_feedback ∉ (["correct", "incorrect"] : List String) then
      (st, .badRequest "Feedback must be correct or incorrect")
    else if feedback.user_rating < 1 ∨ 5 < feedback.user_rating then
      (st, .badRequest "Rating must be between 1 and 5")
    else
      ({ st with
          recs := setFeedbackFirst feedback.prediction_id
            feedback.user_feedback feedback.user_rating st.recs },
        .ok feedback.prediction_id)

/-- Response body of `GET /api/stats` (`main.py` lines 343-351). -/
structure StatsResponse where
  total_predictions : Nat
  accuracy : ℚ
  average_rating : ℚ
  today_predictions : Nat
  real_count : Nat
  fake_count : Nat
  feedback_count : Nat
deriving DecidableEq

/-- The `GET /api/stats` handler (`main.py` lines 311-351).  `isToday`
abstracts the comparison of a row's timestamp against the start of the
current UTC day.  `accuracy` and `average_rating` are rounded to one
decimal place in the response dict (lines 345-346). -/
def get_statistics (st : Store) (isToday : Nat → Bool) : StatsResponse :=
  let predictions_with_feedback :=
    st.recs.filter (fun r => r.user_feedback.isSome)
  let correct_predictions :=
    (predictions_with_feedback.filter
      (fun r => r.user_feedback == some "correct")).length
  let accuracy : ℚ :=
    if predictions_with_feedback.isEmpty then 0
    else (correct_predictions : ℚ) / (predictions_with_feedback.length : ℚ) * 100
  let ratings : List Int := st.recs.filterMap (fun r => r.user_rating)
  let avg_rating : ℚ :=
    if ratings.isEmpty then 0
    else ((ratings.sum : ℚ)) / (ratings.length : ℚ)
  { total_predictions := st.recs.length
    accuracy := pyRound accuracy 1
    average_rating := pyRound avg_rating 1
    today_predictions := (st.recs.filter (fun r => isToday r.timestamp)).length
    real_count := (st.recs.filter (fun r => r.prediction == "REAL")).length
    fake_count := (st.recs.filter (fun r => r.prediction == "FAKE")).length
    feedback_count := predictions_with_feedback.length }

/-- Ordering used by `GET /api/predictions`:
`order_by(Prediction.timestamp.desc())`. -/
def tsDesc (a b : Prediction) : Prop :=
  b.timestamp ≤ a.timestamp

instance : DecidableRel tsDesc :=
  fun a b => Nat.decLe b.timestamp a.timestamp

instance : IsTotal Prediction tsDesc :=
  ⟨fun a b => Nat.le_total b.timestamp a.timestamp⟩

instance : IsTrans Prediction tsDesc :=
  ⟨fun _ _ _ h1 h2 => le_trans h2 h1⟩

/-- The `GET /api/predictions` handler (`main.py` lines 358-374): rows
ordered by timestamp descending, truncated to `limit`. -/
def get_predictions (st : Store) (limit : Nat) : List Prediction :=
  (List.insertionSort tsDesc st.recs).take limit

/-- The `GET /api/predictions` handler when no `limit` query parameter is
supplied: FastAPI applies the declared default `limit: int = 50`. -/
def get_predictionsDefault (st : Store) : List Prediction :=
  get_predictions st 50

/-- The frame fields of a record: everything except `user_feedback` and
`user_rating`. -/
def framePreserved (r r' : Prediction) : Prop :=
  r'.id = r.id ∧ r'.title = r.title ∧ r'.text = r.text ∧
  r'.prediction = r.prediction ∧ r'.confidence = r.confidence ∧
  r'.latency_seconds = r.latency_seconds ∧ r'.timestamp = r.timestamp ∧
  r'.created_at = r.created_at

/-- The store states reachable through the service's lifecycle: the fresh
database created by `init_db()` (empty table, autoincrement counter at 1),
followed by any sequence of `/predict` and `/feedback` calls.  `/api/stats`
and `/api/predictions` are read-only (they return values and no store), so
they do not appear as transitions. -/
inductive Reachable : Store → Prop where
  | init : Reachable { recs := [], nextId := 1 }
  | predictStep (st : Store) (m : Model) (e : Encoder) (news : NewsItem)
      (elapsed : ℚ) (now : Nat) (persistOk : Bool) :
      Reachable st → Reachable (predictEndpoint m e news elapsed now persistOk st).1
  | feedbackStep (st : Store) (feedback : FeedbackItem) :
      Reachable st → Reachable (submit_feedback feedback st).1

/-- The data-model invariant of C8: in a store state, every record's
`user_feedback` and `user_rating` are both absent or both present. -/
def feedbackPaired (st : Store) : Prop :=
  ∀ r ∈ st.recs, (r.user_feedback.isSome ↔ r.user_rating.isSome)

/-- A concrete classifier artifact whose probability estimate is 1/3 on
every input (any value with more than three decimal places exposes the
response-side rounding). -/
def demoModel : Model :=
  { predictCls := fun _ => 0, proba := .returns (fun _ => 1/3) }

/-- A concrete classifier artifact with no `predict_proba` attribute. -/
def demoModelNoProba : Model :=
  { predictCls := fun _ => 0, proba := .absent }

/-- A concrete label encoder with classes `fake` and `real`. -/
def demoEncoder : Encoder :=
  { inverse_transform := fun c => if c = 0 then "fake" else "real" }

/-- A concrete `/predict` request body. -/
def demoNews : NewsItem := { title := "A", text := "B" }

/-- The fresh database state. -/
def emptyStore : Store := { recs := [], nextId := 1 }

/-- A concrete stored row used in the statistics counterexamples. -/
def mkStatsRec (i : Nat) (fb : Option String) (rt : Option Int) : Prediction :=
  { id := i, title := "t", text := "x", prediction := "FAKE", confidence := 0,
    latency_seconds := 0, timestamp := i, user_feedback := fb,
    user_rating := rt, created_at := i }

/-- A store with three fed-back rows: one `correct` and two `incorrect`,
with ratings 5, 4 and 4. -/
def statsStore : Store :=
  { recs := [mkStatsRec 1 (some "correct") (some 5),
             mkStatsRec 2 (some "incorrect") (some 4),
             mkStatsRec 3 (some "incorrect") (some 4)], nextId := 4 }

/-- A first valid feedback submission for row 1. -/
def fb1W : FeedbackItem :=
  { prediction_id := 1, user_feedback := "correct", user_rating := 5 }

/-- A second valid feedback submission for row 1 with different values. -/
def fb2W : FeedbackItem :=
  { prediction_id := 1, user_feedback := "incorrect", user_rating := 2 }

/-! ### Basic facts about the Python rounding model -/

theorem floor_le_pyRoundInt (q : ℚ) : ⌊q⌋ ≤ pyRoundInt q := by
  unfold pyRoundInt
  split_ifs <;> omega

theorem pyRoundInt_le_ceil (q : ℚ) : pyRoundInt q ≤ ⌈q⌉ := by
  have hfc : ⌊q⌋ ≤ ⌈q⌉ := Int.floor_le_ceil q
  have hstep : 0 < Int.fract q → ⌊q⌋ + 1 ≤ ⌈q⌉ := by
    intro hpos
    have hlt : (⌊q⌋ : ℚ) < q := by
      have hq : q = ⌊q⌋ + Int.fract q := (Int.floor_add_fract q).symm
      nlinarith [hpos]
    have hfloorlt : ⌊q⌋ < ⌈q⌉ := Int.lt_ceil.mpr hlt
    omega
  unfold pyRoundInt
  split_ifs with h1 h2 h3
  · exact hfc
  · exact hstep (by linarith)
  · exact hfc
  · have heq : Int.fract q = 1/2 := le_antisymm (not_lt.mp h2) (not_lt.mp h1)
    exact hstep (by rw [heq]; norm_num)

theorem pyRound_nonneg {q : ℚ} (h : 0 ≤ q) (n : ℕ) : 0 ≤ pyRound q n := by
  unfold pyRound
  have hpow : (0 : ℚ) < 10 ^ n := by positivity
  have hfl : (0 : ℤ) ≤ ⌊q * 10 ^ n⌋ := Int.floor_nonneg.mpr (by positivity)
  have := floor_le_pyRoundInt (q * 10 ^ n)
  have hZ : (0 : ℤ) ≤ pyRoundInt (q * 10 ^ n) := le_trans hfl this
  positivity

theorem pyRound_le_one {q : ℚ} (h : q ≤ 1) (n : ℕ) : pyRound q n ≤ 1 := by
  unfold pyRound
  have hpow : (0 : ℚ) < 10 ^ n := by positivity
  have hle : q * 10 ^ n ≤ 10 ^ n := by nlinarith
  have hceil : ⌈q * 10 ^ n⌉ ≤ (10 : ℤ) ^ n := Int.ceil_le.mpr (by exact_mod_cast hle)
  have hZ : pyRoundInt (q * 10 ^ n) ≤ (10 : ℤ) ^ n :=
    le_trans (pyRoundInt_le_ceil _) hceil
  rw [div_le_one hpow]
  exact_mod_cast hZ

theorem pyRound_zero (n : ℕ) : pyRound 0 n = 0 := by
  unfold pyRound pyRoundInt
  norm_num [Int.fract]

/-! ### Facts about the feedback update on the record list -/

theorem framePreserved_refl (r : Prediction) : framePreserved r r :=
  ⟨rfl, rfl, rfl, rfl, rfl, rfl, rfl, rfl⟩

theorem setFeedbackFirst_forall₂ (pid : Int) (fbv : String) (rt : Int) :
    ∀ l : List Prediction,
      List.Forall₂
        (fun r r' => framePreserved r r' ∧ ((r.id : Int) ≠ pid → r' = r))
        l (setFeedbackFirst pid fbv rt l)
  | [] => List.Forall₂.nil
  | r :: rs => by
    unfold setFeedbackFirst
    split_ifs with h
    · refine List.Forall₂.cons ⟨⟨rfl, rfl, rfl, rfl, rfl, rfl, rfl, rfl⟩, ?_⟩ ?_
      · intro hne; exact absurd h hne
      · exact List.forall₂_same.mpr fun x _ => ⟨framePreserved_refl x, fun _ => rfl⟩
    · exact List.Forall₂.cons ⟨framePreserved_refl r, fun _ => rfl⟩
        (setFeedbackFirst_forall₂ pid fbv rt rs)

theorem length_setFeedbackFirst (pid : Int) (fbv : String) (rt : Int)
    (l : List Prediction) : (setFeedbackFirst pid fbv rt l).length = l.length :=
  ((setFeedbackFirst_forall₂ pid fbv rt l).length_eq).symm

theorem find?_setFeedbackFirst (pid : Int) (fbv : String) (rt : Int) :
    ∀ l : List Prediction, ∀ r : Prediction,
      l.find? (fun x => (x.id : Int) == pid) = some r →
      (setFeedbackFirst pid fbv rt l).find? (fun x => (x.id : Int) == pid) =
        some { r with user_feedback := some fbv, user_rating := some rt }
  | [], r, h => by simp at h
  | x :: xs, r, h => by
    by_cases hx : (x.id : Int) = pid
    · rw [List.find?_cons_of_pos _ (by simpa using hx)] at h
      injection h with h
      subst h
      unfold setFeedbackFirst
      rw [if_pos hx]
      exact List.find?_cons_of_pos _ (by simpa using hx)
    · rw [List.find?_cons_of_neg _ (by simpa using hx)] at h
      unfold setFeedbackFirst
      rw [if_neg hx]
      rw [List.find?_cons_of_neg _ (by simpa using hx)]
      exact find?_setFeedbackFirst pid fbv rt xs r h

theorem setFeedbackFirst_paired (pid : Int) (fbv : String) (rt : Int) :
    ∀ l : List Prediction,
      (∀ r ∈ l, (r.user_feedback.isSome ↔ r.user_rating.isSome)) →
      ∀ r' ∈ setFeedbackFirst pid fbv rt l,
        (r'.user_feedback.isSome ↔ r'.user_rating.isSome)
  | [], _, r', h' => by simp [setFeedbackFirst] at h'
  | x :: xs, h, r', h' => by
    unfold setFeedbackFirst at h'
    split_ifs at h' with hx
    · rcases List.mem_cons.mp h' with h' | h'
      · subst h'; simp
      · exact h r' (List.mem_cons_of_mem _ h')
    · rcases List.mem_cons.mp h' with h' | h'
      · subst h'; exact h r' (List.mem_cons_self _ _)
      · exact setFeedbackFirst_paired pid fbv rt xs
          (fun r hr => h r (List.mem_cons_of_mem _ hr)) r' h'

theorem pyRound_intCast (z : ℤ) (n : ℕ) : pyRound (z : ℚ) n = z := by
  unfold pyRound pyRoundInt
  have hpow : (0 : ℚ) < 10 ^ n := by positivity
  have hint : ((z : ℚ) * 10 ^ n) = ((z * 10 ^ n : ℤ) : ℚ) := by push_cast; ring
  rw [hint, Int.fract_intCast, Int.floor_intCast]
  rw [if_pos (by norm_num : (0 : ℚ) < 1/2)]
  rw [div_eq_iff (ne_of_gt hpow)]
  push_cast
  ring

/-! ### Claim theorems -/

/-- C5: if the persistence write inside `POST /predict` fails, the endpoint
still returns the computed prediction, confidence and latency (the same
values the successful path would return), with `prediction_id` set to null,
and the store is rolled back unchanged. -/
theorem predict_returns_result_on_persistence_failure (m : Model) (e : Encoder)
    (news : NewsItem) (elapsed : ℚ) (now : Nat) (st : Store) :
    (predictEndpoint m e news elapsed now false st).1 = st ∧
    (predictEndpoint m e news elapsed now false st).2.prediction_id = none ∧
    (predictEndpoint m e news elapsed now false st).2.prediction =
      (predictEndpoint m e news elapsed now true st).2.prediction ∧
    (predictEndpoint m e news elapsed now false st).2.confidence =
      (predictEndpoint m e news elapsed now true st).2.confidence ∧
    (predictEndpoint m e news elapsed now false st).2.latency_seconds =
      (predictEndpoint m e news elapsed now true st).2.latency_seconds :=
  ⟨rfl, rfl, rfl, rfl, rfl⟩

/-- C9: `GET /predictions?limit=N` returns at most `N` records, ordered by
timestamp descending (each record's timestamp is at least the next one's),
and with no `limit` parameter the default limit is 50. -/
theorem get_predictions_sorted_and_limited (st : Store) (limit : Nat) :
    (get_predictions st limit).length ≤ limit ∧
    List.Pairwise tsDesc (get_predictions st limit) ∧
    get_predictionsDefault st = get_predictions st 50 := by
  refine ⟨?_, ?_, rfl⟩
  · simp [get_predictions]
  · exact (List.sorted_insertionSort tsDesc st.recs).sublist
      (List.take_sublist limit _)

theorem submit_feedback_of_find?_none {feedback : FeedbackItem} {st : Store}
    (hfind : st.recs.find? (fun x => (x.id : Int) == feedback.prediction_id)
      = none) :
    submit_feedback feedback st = (st, .notFound) := by
  unfold submit_feedback
  rw [hfind]

theorem submit_feedback_of_find?_some {feedback : FeedbackItem} {st : Store}
    {r : Prediction}
    (hfind : st.recs.find? (fun x => (x.id : Int) == feedback.prediction_id)
      = some r) :
    submit_feedback feedback st =
      if feedback.user_feedback ∉ (["correct", "incorrect"] : List String) then
        (st, .badRequest "Feedback must be correct or incorrect")
      else if feedback.user_rating < 1 ∨ 5 < feedback.user_rating then
        (st, .badRequest "Rating must be between 1 and 5")
      else
        ({ st with
            recs := setFeedbackFirst feedback.prediction_id
              feedback.user_feedback feedback.user_rating st.recs },
          .ok feedback.prediction_id) := by
  unfold submit_feedback
  rw [hfind]

/-- C2: `POST /feedback` returns the not-found error exactly when no stored
record has the given `prediction_id`; it returns a validation error exactly
when such a record exists but `user_feedback` is not in
{correct, incorrect} or `user_rating` is outside 1-5; and in every failure
case the store is unchanged. -/
theorem submit_feedback_error_characterization (feedback : FeedbackItem)
    (st : Store) :
    ((submit_feedback feedback st).2 = .notFound ↔
      ∀ r ∈ st.recs, (r.id : Int) ≠ feedback.prediction_id) ∧
    ((∃ d, (submit_feedback feedback st).2 = .badRequest d) ↔
      ((∃ r ∈ st.recs, (r.id : Int) = feedback.prediction_id) ∧
        (feedback.user_feedback ∉ (["correct", "incorrect"] : List String) ∨
          feedback.user_rating < 1 ∨ 5 < feedback.user_rating))) ∧
    (((submit_feedback feedback st).2 = .notFound ∨
        (∃ d, (submit_feedback feedback st).2 = .badRequest d)) →
      (submit_feedback feedback st).1 = st) := by
  rcases hfind : st.recs.find? (fun r => (r.id : Int) == feedback.prediction_id)
    with _ | r
  · have hall : ∀ r ∈ st.recs, (r.id : Int) ≠ feedback.prediction_id := by
      intro r hr
      have := List.find?_eq_none.mp hfind r hr
      simpa using this
    rw [submit_feedback_of_find?_none hfind]
    refine ⟨⟨fun _ => hall, fun _ => rfl⟩, ?_, fun _ => rfl⟩
    constructor
    · intro ⟨d, hd⟩
      cases hd
    · intro ⟨⟨r, hr, hid⟩, _⟩
      exact absurd hid (hall r hr)
  · have hmem : r ∈ st.recs := List.mem_of_find?_eq_some hfind
    have hid : (r.id : Int) = feedback.prediction_id := by
      have := List.find?_some hfind
      simpa using this
    rw [submit_feedback_of_find?_some hfind]
    by_cases h1 :
        feedback.user_feedback ∉ (["correct", "incorrect"] : List String)
    · rw [if_pos h1]
      refine ⟨?_, ?_, fun _ => rfl⟩
      · constructor
        · intro h; cases h
        · intro hall; exact absurd hid (hall r hmem)
      · constructor
        · intro _; exact ⟨⟨r, hmem, hid⟩, Or.inl h1⟩
        · intro _; exact ⟨_, rfl⟩
    · rw [if_neg h1]
      by_cases h2 : feedback.user_rating < 1 ∨ 5 < feedback.user_rating
      · rw [if_pos h2]
        refine ⟨?_, ?_, fun _ => rfl⟩
        · constructor
          · intro h; cases h
          · intro hall; exact absurd hid (hall r hmem)
        · constructor
          · intro _; exact ⟨⟨r, hmem, hid⟩, Or.inr h2⟩
          · intro _; exact ⟨_, rfl⟩
      · rw [if_neg h2]
        refine ⟨?_, ?_, ?_⟩
        · constructor
          · intro h; cases h
          · intro hall; exact absurd hid (hall r hmem)
        · constructor
          · intro ⟨d, hd⟩; cases hd
          · intro ⟨_, hbad⟩
            rcases hbad with hbad | hbad
            · exact absurd hbad h1
            · exact absurd hbad h2
        · intro hfail
          rcases hfail with hfail | ⟨d, hfail⟩ <;> cases hfail

theorem submit_feedback_store_cases (feedback : FeedbackItem) (st : Store) :
    (submit_feedback feedback st).1 = st ∨
    (submit_feedback feedback st).1 =
      { st with
          recs := setFeedbackFirst feedback.prediction_id
            feedback.user_feedback feedback.user_rating st.recs } := by
  rcases hfind : st.recs.find? (fun r => (r.id : Int) == feedback.prediction_id)
    with _ | r
  · rw [submit_feedback_of_find?_none hfind]
    exact Or.inl rfl
  · rw [submit_feedback_of_find?_some hfind]
    by_cases h1 :
        feedback.user_feedback ∉ (["correct", "incorrect"] : List String)
    · rw [if_pos h1]
      exact Or.inl rfl
    · rw [if_neg h1]
      by_cases h2 : feedback.user_rating < 1 ∨ 5 < feedback.user_rating
      · rw [if_pos h2]
        exact Or.inl rfl
      · rw [if_neg h2]
        exact Or.inr rfl

/-- C10: a successful `POST /feedback` changes at most the `user_feedback`
and `user_rating` fields of stored records: the id counter, the number of
records, and every record's id, title, text, prediction, confidence,
latency, timestamp and created_at are unchanged, and any record whose id is
not the submitted `prediction_id` is entirely unchanged. -/
theorem submit_feedback_frame (feedback : FeedbackItem) (st : Store)
    (h : (submit_feedback feedback st).2 = .ok feedback.prediction_id) :
    (submit_feedback feedback st).1.nextId = st.nextId ∧
    (submit_feedback feedback st).1.recs.length = st.recs.length ∧
    ∀ i (hi : i < st.recs.length)
      (hi' : i < (submit_feedback feedback st).1.recs.length),
      framePreserved (st.recs.get ⟨i, hi⟩)
        ((submit_feedback feedback st).1.recs.get ⟨i, hi'⟩) ∧
      (((st.recs.get ⟨i, hi⟩).id : Int) ≠ feedback.prediction_id →
        (submit_feedback feedback st).1.recs.get ⟨i, hi'⟩ =
          st.recs.get ⟨i, hi⟩) := by
  rcases submit_feedback_store_cases feedback st with hst | hst <;> rw [hst]
  · exact ⟨rfl, rfl, fun i hi hi' =>
      ⟨framePreserved_refl _, fun _ => rfl⟩⟩
  · refine ⟨rfl, length_setFeedbackFirst _ _ _ _, fun i hi hi' => ?_⟩
    exact (setFeedbackFirst_forall₂ feedback.prediction_id
      feedback.user_feedback feedback.user_rating st.recs).get hi hi'

/-- C4: submitting `POST /feedback` twice for an existing `prediction_id`
with two valid (feedback, rating) pairs succeeds both times, and afterwards
the record addressed by that id holds exactly the second submission's
values (last write wins). -/
theorem submit_feedback_last_write_wins (fb1 fb2 : FeedbackItem) (st : Store)
    (hid : fb2.prediction_id = fb1.prediction_id)
    (hex : ∃ r ∈ st.recs, (r.id : Int) = fb1.prediction_id)
    (hv1f : fb1.user_feedback ∈ (["correct", "incorrect"] : List String))
    (hv1r : 1 ≤ fb1.user_rating ∧ fb1.user_rating ≤ 5)
    (hv2f : fb2.user_feedback ∈ (["correct", "incorrect"] : List String))
    (hv2r : 1 ≤ fb2.user_rating ∧ fb2.user_rating ≤ 5) :
    (submit_feedback fb1 st).2 = .ok fb1.prediction_id ∧
    (submit_feedback fb2 (submit_feedback fb1 st).1).2 =
      .ok fb2.prediction_id ∧
    ∃ r, (submit_feedback fb2 (submit_feedback fb1 st).1).1.recs.find?
        (fun x => (x.id : Int) == fb2.prediction_id) = some r ∧
      r.user_feedback = some fb2.user_feedback ∧
      r.user_rating = some fb2.user_rating := by
  obtain ⟨r1, hmem1, hid1⟩ := hex
  have hfind1 : (st.recs.find?
      (fun x => (x.id : Int) == fb1.prediction_id)).isSome := by
    rw [List.find?_isSome]
    exact ⟨r1, hmem1, by simpa using hid1⟩
  obtain ⟨ra, hfa⟩ := Option.isSome_iff_exists.mp hfind1
  have hno1 : ¬(fb1.user_rating < 1 ∨ 5 < fb1.user_rating) := by omega
  have hno2 : ¬(fb2.user_rating < 1 ∨ 5 < fb2.user_rating) := by omega
  have e1 : submit_feedback fb1 st =
      ({ st with
          recs := setFeedbackFirst fb1.prediction_id fb1.user_feedback
            fb1.user_rating st.recs },
        .ok fb1.prediction_id) := by
    rw [submit_feedback_of_find?_some hfa, if_neg (not_not_intro hv1f),
      if_neg hno1]
  have hfb : (setFeedbackFirst fb1.prediction_id fb1.user_feedback
        fb1.user_rating st.recs).find?
        (fun x => (x.id : Int) == fb1.prediction_id) =
      some { ra with
        user_feedback := some fb1.user_feedback,
        user_rating := some fb1.user_rating } :=
    find?_setFeedbackFirst _ _ _ _ _ hfa
  have hfb2 : (setFeedbackFirst fb1.prediction_id fb1.user_feedback
        fb1.user_rating st.recs).find?
        (fun x => (x.id : Int) == fb2.prediction_id) =
      some { ra with
        user_feedback := some fb1.user_feedback,
        user_rating := some fb1.user_rating } := by
    rw [hid]
    exact hfb
  have key2 : submit_feedback fb2
      ({ st with
          recs := setFeedbackFirst fb1.prediction_id fb1.user_feedback
            fb1.user_rating st.recs } : Store) =
      ({ st with
          recs := setFeedbackFirst fb2.prediction_id fb2.user_feedback
            fb2.user_rating (setFeedbackFirst fb1.prediction_id
              fb1.user_feedback fb1.user_rating st.recs) },
        .ok fb2.prediction_id) := by
    rw [submit_feedback_of_find?_some hfb2, if_neg (not_not_intro hv2f),
      if_neg hno2]
  refine ⟨by rw [e1], by rw [e1, key2], ?_⟩
  rw [e1, key2]
  exact ⟨_, find?_setFeedbackFirst _ _ _ _ _ hfb2, rfl, rfl⟩

/-- C8: in every reachable store state each record has `user_feedback` and
`user_rating` either both absent or both present; record creation starts
both as NULL and the feedback update sets both together, and the read-only
endpoints change nothing. -/
theorem reachable_feedback_fields_paired (st : Store) (h : Reachable st) :
    feedbackPaired st := by
  induction h with
  | init =>
    intro r hr
    cases hr
  | predictStep st m e news elapsed now persistOk _ ih =>
    cases persistOk
    · exact ih
    · intro r hr
      rcases List.mem_append.mp hr with hr | hr
      · exact ih r hr
      · rcases List.mem_singleton.mp hr with rfl
        simp [db_prediction]
  | feedbackStep st feedback _ ih =>
    rcases submit_feedback_store_cases feedback st with hc | hc <;> rw [hc]
    · exact ih
    · exact setFeedbackFirst_paired _ _ _ _ ih

/-- C6: under the classifier-adapter contract (the encoder's classes
upper-case to REAL or FAKE, and any probability estimate lies in [0,1])
and with a non-negative elapsed time, `POST /predict` returns a label in
{REAL, FAKE}, a confidence that is either a number in [0,1] or null, and a
non-negative latency; when the classifier exposes no `predict_proba`, the
confidence is null rather than an error. -/
theorem predict_response_wellformed (m : Model) (e : Encoder) (news : NewsItem)
    (elapsed : ℚ) (now : Nat) (persistOk : Bool) (st : Store)
    (hlabel : ∀ c, pyUpper (e.inverse_transform c) = "REAL" ∨
      pyUpper (e.inverse_transform c) = "FAKE")
    (hproba : ∀ f, m.proba = ProbaSpec.returns f → ∀ s, 0 ≤ f s ∧ f s ≤ 1)
    (helapsed : 0 ≤ elapsed) :
    ((predictEndpoint m e news elapsed now persistOk st).2.prediction = "REAL" ∨
      (predictEndpoint m e news elapsed now persistOk st).2.prediction = "FAKE") ∧
    (∀ q, (predictEndpoint m e news elapsed now persistOk st).2.confidence =
        some q → 0 ≤ q ∧ q ≤ 1) ∧
    0 ≤ (predictEndpoint m e news elapsed now persistOk st).2.latency_seconds ∧
    (m.proba = ProbaSpec.absent →
      (predictEndpoint m e news elapsed now persistOk st).2.confidence =
        none) := by
  have hresp : (predictEndpoint m e news elapsed now persistOk st).2 =
      predictResponse m e news elapsed persistOk st := by
    cases persistOk <;> rfl
  rw [hresp]
  refine ⟨hlabel (m.predictCls (fullTextOf news)), ?_,
    pyRound_nonneg helapsed 3, ?_⟩
  · intro q hq
    rcases hm : m.proba with _ | _ | f
    · simp [predictResponse, respConfidence, probaValue, hm, pyTruthy] at hq
    · simp [predictResponse, respConfidence, probaValue, hm, pyTruthy] at hq
    · by_cases hz : f (fullTextOf news) = 0
      · simp [predictResponse, respConfidence, probaValue, hm, pyTruthy, hz]
          at hq
      · have hb := hproba f hm (fullTextOf news)
        have hqv : pyRound (f (fullTextOf news)) 3 = q := by
          simpa [predictResponse, respConfidence, probaValue, hm, pyTruthy, hz]
            using hq
        rw [← hqv]
        exact ⟨pyRound_nonneg hb.1 3, pyRound_le_one hb.2 3⟩
  · intro habs
    simp [predictResponse, respConfidence, probaValue, habs, pyTruthy]

theorem respConfidence_dbConfidence (p : Option ℚ) :
    respConfidence p =
      if dbConfidence p = 0 then none
      else some (pyRound (dbConfidence p) 3) := by
  rcases p with _ | q
  · simp [respConfidence, dbConfidence, pyTruthy]
  · by_cases hz : q = 0
    · simp [respConfidence, dbConfidence, pyTruthy, hz]
    · simp [respConfidence, dbConfidence, pyTruthy, hz]

/-- C1 (amended): after a successful `/predict` (non-null `prediction_id`),
`GET /predictions` with sufficient limit returns a record with that id
exactly once, and its title, text and prediction equal those of the
request/response; the stored confidence is the raw probability (0.0 when
absent or zero) while the response confidence is that value rounded to
three decimals (null when the stored value is zero), so the two agree only
up to this rounding / null-versus-zero difference. -/
theorem predict_record_in_listing (m : Model) (e : Encoder) (news : NewsItem)
    (elapsed : ℚ) (now : Nat) (st : Store)
    (hids : ∀ r ∈ st.recs, r.id < st.nextId)
    (limit : Nat) (hlimit : st.recs.length + 1 ≤ limit) :
    (predictEndpoint m e news elapsed now true st).2.prediction_id =
      some st.nextId ∧
    (get_predictions (predictEndpoint m e news elapsed now true st).1
        limit).countP (fun r => r.id == st.nextId) = 1 ∧
    ∀ r ∈ get_predictions (predictEndpoint m e news elapsed now true st).1
        limit,
      r.id = st.nextId →
      r.title = news.title ∧ r.text = news.text ∧
      r.prediction =
        (predictEndpoint m e news elapsed now true st).2.prediction ∧
      (predictEndpoint m e news elapsed now true st).2.confidence =
        (if r.confidence = 0 then none
          else some (pyRound r.confidence 3)) := by
  have hstore : (predictEndpoint m e news elapsed now true st).1 =
      { recs := st.recs ++ [db_prediction m e news elapsed now st],
        nextId := st.nextId + 1 } := rfl
  have hresp : (predictEndpoint m e news elapsed now true st).2 =
      predictResponse m e news elapsed true st := rfl
  set recs' := st.recs ++ [db_prediction m e news elapsed now st] with hrecs'
  have hperm : (List.insertionSort tsDesc recs').Perm recs' :=
    List.perm_insertionSort tsDesc recs'
  have hlen : (List.insertionSort tsDesc recs').length ≤ limit := by
    rw [hperm.length_eq]
    simpa [hrecs'] using hlimit
  have htake : get_predictions
      (predictEndpoint m e news elapsed now true st).1 limit =
      List.insertionSort tsDesc recs' := by
    rw [hstore]
    exact List.take_of_length_le hlen
  refine ⟨rfl, ?_, ?_⟩
  · rw [htake, hperm.countP_eq, hrecs',
      List.countP_append (fun r => r.id == st.nextId) st.recs
        [db_prediction m e news elapsed now st]]
    have h0 : st.recs.countP (fun r => r.id == st.nextId) = 0 := by
      rw [List.countP_eq_zero]
      intro r hr
      have := hids r hr
      simp
      omega
    rw [h0]
    simp [db_prediction]
  · intro r hr hid
    rw [htake] at hr
    have hr' : r ∈ recs' := (List.mem_insertionSort tsDesc).mp hr
    rcases List.mem_append.mp hr' with hr'' | hr''
    · exact absurd hid (Nat.ne_of_lt (hids r hr''))
    · rcases List.mem_singleton.mp hr'' with rfl
      refine ⟨rfl, rfl, rfl, ?_⟩
    -- the response confidence versus the stored confidence
      rw [hresp]
      exact respConfidence_dbConfidence (probaValue m (fullTextOf news))

theorem length_filterMap_user_rating :
    ∀ l : List Prediction,
      (l.filterMap (fun r => r.user_rating)).length =
        l.countP (fun r => r.user_rating.isSome)
  | [] => rfl
  | r :: rs => by
    cases h : r.user_rating <;>
      simp [List.filterMap_cons, h, List.countP_cons,
        length_filterMap_user_rating rs]

/-- C3 (amended): the accuracy returned by `GET /api/stats` equals the
percentage of fed-back records marked correct rounded to one decimal place
(Python's `round(x, 1)`); it is exactly 0 when no record has feedback, and
exactly 100 when some record has feedback and every fed-back record is
marked correct. -/
theorem stats_accuracy_rounded (st : Store) (isToday : Nat → Bool) :
    (get_statistics st isToday).accuracy =
      (if st.recs.countP (fun r => r.user_feedback.isSome) = 0 then 0
        else pyRound
          (((st.recs.countP (fun r => r.user_feedback == some "correct") : ℚ)) /
            ((st.recs.countP (fun r => r.user_feedback.isSome) : ℚ)) * 100) 1) ∧
    (st.recs.countP (fun r => r.user_feedback.isSome) = 0 →
      (get_statistics st isToday).accuracy = 0) ∧
    ((0 < st.recs.countP (fun r => r.user_feedback.isSome) ∧
        ∀ r ∈ st.recs, r.user_feedback.isSome →
          r.user_feedback = some "correct") →
      (get_statistics st isToday).accuracy = 100) := by
  have hpwf : st.recs.countP (fun r => r.user_feedback.isSome) =
      (st.recs.filter (fun r => r.user_feedback.isSome)).length :=
    List.countP_eq_length_filter _ _
  have hcor : st.recs.countP (fun r => r.user_feedback == some "correct") =
      ((st.recs.filter (fun r => r.user_feedback.isSome)).filter
        (fun r => r.user_feedback == some "correct")).length := by
    rw [List.filter_filter, List.countP_eq_length_filter]
    congr 1
    apply List.filter_congr
    intro r _
    cases h : r.user_feedback <;> simp [h]
  have hacc : (get_statistics st isToday).accuracy =
      pyRound
        (if (st.recs.filter (fun r => r.user_feedback.isSome)).isEmpty then (0 : ℚ)
          else (((st.recs.filter (fun r => r.user_feedback.isSome)).filter
              (fun r => r.user_feedback == some "correct")).length : ℚ) /
            ((st.recs.filter (fun r => r.user_feedback.isSome)).length : ℚ) * 100)
        1 := rfl
  have hmain : (get_statistics st isToday).accuracy =
      (if st.recs.countP (fun r => r.user_feedback.isSome) = 0 then 0
        else pyRound
          (((st.recs.countP (fun r => r.user_feedback == some "correct") : ℚ)) /
            ((st.recs.countP (fun r => r.user_feedback.isSome) : ℚ)) * 100) 1) := by
    by_cases hE : (st.recs.filter (fun r => r.user_feedback.isSome)).isEmpty
    · have h0 : st.recs.countP (fun r => r.user_feedback.isSome) = 0 := by
        rw [hpwf, List.length_eq_zero]
        exact List.isEmpty_iff.mp hE
      rw [hacc, if_pos hE, if_pos h0, pyRound_zero]
    · have h0 : st.recs.countP (fun r => r.user_feedback.isSome) ≠ 0 := by
        rw [hpwf]
        intro hz
        exact hE (List.isEmpty_iff.mpr (List.length_eq_zero.mp hz))
      rw [hacc, if_neg hE, if_neg h0, hpwf, hcor]
  refine ⟨hmain, ?_, ?_⟩
  · intro h0
    rw [hmain, if_pos h0]
  · intro ⟨hpos, hall⟩
    have h0 : st.recs.countP (fun r => r.user_feedback.isSome) ≠ 0 :=
      Nat.pos_iff_ne_zero.mp hpos
    have hceq : st.recs.countP (fun r => r.user_feedback == some "correct") =
        st.recs.countP (fun r => r.user_feedback.isSome) := by
      apply List.countP_congr
      intro r hr
      cases h : r.user_feedback with
      | none => simp [h]
      | some s =>
        have := hall r hr (by simp [h])
        rw [h] at this
        injection this with this
        simp [h, this]
    rw [hmain, if_neg h0, hceq]
    have hc : ((st.recs.countP (fun r => r.user_feedback.isSome) : ℚ)) ≠ 0 := by
      exact_mod_cast h0
    rw [div_self hc, one_mul]
    have h100 := pyRound_intCast 100 1
    push_cast at h100
    exact h100

/-- C7 (amended): the average_rating returned by `GET /api/stats` equals
the arithmetic mean of `user_rating` over all stored records in which a
rating is present — regardless of whether `user_feedback` is set on those
records — rounded to one decimal place, and equals 0 when no record has a
rating. -/
theorem stats_average_rating_rounded (st : Store) (isToday : Nat → Bool) :
    (get_statistics st isToday).average_rating =
      (if st.recs.countP (fun r => r.user_rating.isSome) = 0 then 0
        else pyRound
          (((((st.recs.filterMap (fun r => r.user_rating)).sum : ℤ) : ℚ)) /
            ((st.recs.countP (fun r => r.user_rating.isSome) : ℚ))) 1) ∧
    (st.recs.countP (fun r => r.user_rating.isSome) = 0 →
      (get_statistics st isToday).average_rating = 0) := by
  have hlen := length_filterMap_user_rating st.recs
  have havg : (get_statistics st isToday).average_rating =
      pyRound
        (if (st.recs.filterMap (fun r => r.user_rating)).isEmpty then (0 : ℚ)
          else ((((st.recs.filterMap (fun r => r.user_rating)).sum : ℤ) : ℚ)) /
            ((st.recs.filterMap (fun r => r.user_rating)).length : ℚ))
        1 := rfl
  have hmain : (get_statistics st isToday).average_rating =
      (if st.recs.countP (fun r => r.user_rating.isSome) = 0 then 0
        else pyRound
          (((((st.recs.filterMap (fun r => r.user_rating)).sum : ℤ) : ℚ)) /
            ((st.recs.countP (fun r => r.user_rating.isSome) : ℚ))) 1) := by
    by_cases hE : (st.recs.filterMap (fun r => r.user_rating)).isEmpty
    · have h0 : st.recs.countP (fun r => r.user_rating.isSome) = 0 := by
        rw [← hlen, List.length_eq_zero]
        exact List.isEmpty_iff.mp hE
      rw [havg, if_pos hE, if_pos h0, pyRound_zero]
    · have h0 : st.recs.countP (fun r => r.user_rating.isSome) ≠ 0 := by
        rw [← hlen]
        intro hz
        exact hE (List.isEmpty_iff.mpr (List.length_eq_zero.mp hz))
      rw [havg, if_neg hE, if_neg h0, ← hlen]
  refine ⟨hmain, ?_⟩
  intro h0
  rw [hmain, if_pos h0]

/-- C1 counterexample: with classifier probability 1/3, `/predict` responds
with confidence 0.333 (rounded to three decimals) while the stored record
returned by `/predictions` holds the unrounded 1/3, so the record's
confidence does not equal the confidence returned by `/predict`. -/
theorem predict_listing_confidence_mismatch :
    (predictEndpoint demoModel demoEncoder demoNews 0 7 true
      emptyStore).2.prediction_id = some 1 ∧
    (predictEndpoint demoModel demoEncoder demoNews 0 7 true
      emptyStore).2.confidence = some (333/1000) ∧
    (get_predictions (predictEndpoint demoModel demoEncoder demoNews 0 7 true
        emptyStore).1 50).map (fun r => (r.id, r.confidence)) = [(1, 1/3)] ∧
    ((1 : ℚ)/3) ≠ 333/1000 := by
  refine ⟨rfl, ?_, ?_, by norm_num⟩
  · show respConfidence (some ((1 : ℚ)/3)) = some (333/1000)
    unfold respConfidence
    rw [if_pos (show pyTruthy (some ((1 : ℚ)/3)) = true by
      simp [pyTruthy, bne_iff_ne])]
    have : ((some ((1 : ℚ)/3)).getD 0) = (1 : ℚ)/3 := rfl
    rw [this]
    unfold pyRound pyRoundInt
    norm_num [Int.fract]
  · have hrec : get_predictions (predictEndpoint demoModel demoEncoder
        demoNews 0 7 true emptyStore).1 50 =
        [db_prediction demoModel demoEncoder demoNews 0 7 emptyStore] := by
      show (List.insertionSort tsDesc
        ([] ++ [db_prediction demoModel demoEncoder demoNews 0 7 emptyStore])).take 50 = _
      simp [List.insertionSort]
    rw [hrec]
    have hconf : (db_prediction demoModel demoEncoder demoNews 0 7
        emptyStore).confidence = 1/3 := by
      show dbConfidence (some ((1 : ℚ)/3)) = 1/3
      unfold dbConfidence
      rw [if_pos (show pyTruthy (some ((1 : ℚ)/3)) = true by
        simp [pyTruthy, bne_iff_ne])]
      rfl
    simp [hconf]
    rfl

/-- C3 counterexample: with one correct and two incorrect fed-back rows the
claimed value is (1/3)·100 = 100/3, while `/api/stats` returns the rounded
33.3. -/
theorem stats_accuracy_claim_cex :
    (get_statistics statsStore (fun _ => false)).feedback_count = 3 ∧
    (get_statistics statsStore (fun _ => false)).accuracy = 333/10 ∧
    ((1 : ℚ))/3 * 100 ≠ 333/10 := by
  refine ⟨rfl, ?_, by norm_num⟩
  have h0 : (get_statistics statsStore (fun _ => false)).accuracy =
      pyRound ((((1 : ℕ) : ℚ))/(((3 : ℕ) : ℚ)) * 100) 1 := rfl
  rw [h0]
  have h1 : (((1 : ℕ) : ℚ))/(((3 : ℕ) : ℚ)) * 100 = 1000/30 := by norm_num
  rw [h1]
  unfold pyRound pyRoundInt
  norm_num [Int.fract]

/-- C7 counterexample: with ratings 5, 4 and 4 the claimed value is the
exact mean 13/3, while `/api/stats` returns the rounded 4.3. -/
theorem stats_average_rating_claim_cex :
    (get_statistics statsStore (fun _ => false)).average_rating = 43/10 ∧
    ((5 + 4 + 4 : ℚ))/3 ≠ 43/10 := by
  refine ⟨?_, by norm_num⟩
  have h0 : (get_statistics statsStore (fun _ => false)).average_rating =
      pyRound ((((13 : ℤ) : ℚ))/(((3 : ℕ) : ℚ))) 1 := rfl
  rw [h0]
  have h1 : (((13 : ℤ) : ℚ))/(((3 : ℕ) : ℚ)) = 130/30 := by norm_num
  rw [h1]
  unfold pyRound pyRoundInt
  norm_num [Int.fract]

/-- Witness for C1 at the concrete demo input. -/
theorem predict_record_in_listing_witness :
    (predictEndpoint demoModel demoEncoder demoNews 0 7 true
      emptyStore).2.prediction_id = some 1 ∧
    (get_predictions (predictEndpoint demoModel demoEncoder demoNews 0 7 true
        emptyStore).1 50).countP (fun r => r.id == 1) = 1 := by
  have h := predict_record_in_listing demoModel demoEncoder demoNews 0 7
    emptyStore (by intro r hr; simp [emptyStore] at hr) 50
    (by simp [emptyStore])
  exact ⟨h.1, h.2.1⟩

/-- Witness for C4 at the concrete demo input. -/
theorem submit_feedback_last_write_wins_witness :
    (submit_feedback fb1W statsStore).2 = .ok 1 ∧
    (submit_feedback fb2W (submit_feedback fb1W statsStore).1).2 = .ok 1 := by
  have h := submit_feedback_last_write_wins fb1W fb2W statsStore rfl
    ⟨mkStatsRec 1 (some "correct") (some 5), by simp [statsStore], rfl⟩
    (by simp [fb1W]) (by norm_num [fb1W]) (by simp [fb2W]) (by norm_num [fb2W])
  exact ⟨h.1, h.2.1⟩

/-- Witness for C6 at the concrete demo input. -/
theorem predict_response_wellformed_witness :
    (predictEndpoint demoModelNoProba demoEncoder demoNews 0 7 true
      emptyStore).2.confidence = none ∧
    0 ≤ (predictEndpoint demoModelNoProba demoEncoder demoNews 0 7 true
      emptyStore).2.latency_seconds := by
  have h := predict_response_wellformed demoModelNoProba demoEncoder demoNews
    0 7 true emptyStore
    (by
      intro c
      cases c with
      | zero => exact Or.inr (by decide)
      | succ n =>
        left
        show pyUpper "real" = "REAL"
        decide)
    (by
      intro f hf
      exact absurd hf (by simp [demoModelNoProba]))
    (le_refl 0)
  exact ⟨h.2.2.2 rfl, h.2.2.1⟩

/-- Witness for C8 at concrete reachable states. -/
theorem reachable_feedback_fields_paired_witness :
    feedbackPaired { recs := [], nextId := 1 } ∧
    feedbackPaired (predictEndpoint demoModel demoEncoder demoNews 0 7 true
      { recs := [], nextId := 1 }).1 := by
  have h1 := reachable_feedback_fields_paired _ Reachable.init
  have h2 := reachable_feedback_fields_paired _
    (Reachable.predictStep _ demoModel demoEncoder demoNews 0 7 true
      Reachable.init)
  exact ⟨h1, h2⟩

/-- Witness for C10 at the concrete demo input. -/
theorem submit_feedback_frame_witness :
    (submit_feedback fb1W statsStore).1.nextId = statsStore.nextId ∧
    (submit_feedback fb1W statsStore).1.recs.length =
      statsStore.recs.length := by
  have h := submit_feedback_frame fb1W statsStore rfl
  exact ⟨h.1, h.2.1⟩

end FakeNews
